import Mathlib

/-!
Verification of the forecast-orchestration core of `quartz_solar_forecast`.

Shallow embedding conventions:
* Instants are integers counting seconds since the Unix epoch (naive, no
  time zone), so `pd.Timestamp.floor("15min")` is flooring to a multiple of
  900 and the 48-hour horizon is 172800 seconds.
* pandas `DataFrame`s are association lists: the raw geometry-driven
  provider output is a list of `(positional label, row)` pairs, and the
  final date-keyed series is a list of `(date, power_wh)` pairs.
* Fallible Python code returns `Except PyError`; `PyError` has one
  constructor per Python exception the embedded code can raise, plus one
  per error class named by the specification, so that theorems can state
  which of the two a given path produces.
* External collaborators (`get_nwp`, `make_pv_data`, `forecast_v1`,
  `TryolabsSolarPowerPredictor.predict_power_output`) are taken as function
  parameters: the claims quantify over their behaviour.
-/

/-- Errors: the first three constructors are the Python exceptions the
embedded code can actually raise (`IndexError`, `KeyError`, `ValueError`);
the last four are the error classes named by the specification's taxonomy
(§7), which no code in the repository defines or raises. -/
inductive PyError where
  | indexError
  | keyError (key : String)
  | valueError (msg : String)
  | missingAuthorizationCode
  | tokenExchange (rawBody : String)
  | malformedTimestamp (txt : String)
  | unsupportedProvider (name : String)
deriving DecidableEq

/-- The `ts` argument of the forecast entry points: `datetime | str`. -/
inductive TsArg where
  | dt (t : Int)
  | str (s : String)
deriving DecidableEq

/-- `pd.Timestamp.floor("15min")` on an epoch-second instant: round down to
the nearest multiple of 900 seconds. -/
def floorTo15 (t : Int) : Int :=
  t - Int.emod t 900

/-- `pd.Timestamp.round("15min")` on an epoch-second instant: round to the
nearest multiple of 900 seconds, ties to the even multiple (pandas rounds
half to even). -/
def roundNearest15 (t : Int) : Int :=
  let r := Int.emod t 900
  let b := t - r
  if r < 450 then b
  else if 450 < r then b + 900
  else if Int.emod (Int.fdiv b 900) 2 = 0 then b else b + 900

/-- Leap-year rule of the proleptic Gregorian calendar (as used by
`datetime.date`). -/
def isLeap (y : Nat) : Bool :=
  y % 4 = 0 && (y % 100 ≠ 0 || y % 400 = 0)

/-- Number of days in month `m` of year `y` (as validated by
`datetime.date`). -/
def daysInMonth (y m : Nat) : Nat :=
  if m = 2 then (if isLeap y then 29 else 28)
  else if m = 4 || m = 6 || m = 9 || m = 11 then 30
  else 31

/-- Days from the epoch 1970-01-01 to civil date `y-m-d` (Howard Hinnant's
`days_from_civil` algorithm, the standard civil-calendar day count used by
`datetime`/`pandas`). -/
def daysFromCivil (y m d : Nat) : Int :=
  let yAdj : Int := if m ≤ 2 then (y : Int) - 1 else (y : Int)
  let era : Int := Int.fdiv yAdj 400
  let yoe : Int := yAdj - era * 400
  let mp : Int := Int.emod ((m : Int) + 9) 12
  let doy : Int := Int.fdiv (153 * mp + 2) 5 + (d : Int) - 1
  let doe : Int := yoe * 365 + Int.fdiv yoe 4 - Int.fdiv yoe 100 + doy
  era * 146097 + doe - 719468

/-- Decimal digit value of a character, `none` when not a digit. -/
def charDigit (c : Char) : Option Nat :=
  if c.isDigit then some (c.toNat - 48) else none

/-- Two-digit decimal field. -/
def parse2 (a b : Char) : Option Nat :=
  match charDigit a, charDigit b with
  | some x, some y => some (x * 10 + y)
  | _, _ => none

/-- Four-digit decimal field. -/
def parse4 (a b c d : Char) : Option Nat :=
  match parse2 a b, parse2 c d with
  | some x, some y => some (x * 100 + y)
  | _, _ => none

/-- Range-validate the parsed components (as `datetime` does: year ≥ 1,
month 1–12, day 1–days-in-month, hour 0–23, minute 0–59) and convert to
epoch seconds. -/
def buildDateTime (y mo d hh mi : Nat) : Option Int :=
  if 1 ≤ y ∧ 1 ≤ mo ∧ mo ≤ 12 ∧ 1 ≤ d ∧ d ≤ daysInMonth y mo ∧ hh ≤ 23 ∧ mi ≤ 59 then
    some (daysFromCivil y mo d * 86400 + ((hh : Int) * 3600 + (mi : Int) * 60))
  else none

/-- Grammar of the modelled ISO-8601 subset: `YYYY-MM-DD` optionally
followed by a separator (`T` or space) and `HH:MM`.  This is the common
subset accepted by both `datetime.fromisoformat` and `pd.Timestamp`; texts
outside it are rejected, exactly as both parsers reject non-ISO text. -/
def parseIsoCore (cs : List Char) : Option Int :=
  match cs with
  | [y1, y2, y3, y4, '-', m1, m2, '-', d1, d2] =>
    match parse4 y1 y2 y3 y4, parse2 m1 m2, parse2 d1 d2 with
    | some y, some mo, some d => buildDateTime y mo d 0 0
    | _, _, _ => none
  | [y1, y2, y3, y4, '-', m1, m2, '-', d1, d2, sep, h1, h2, ':', n1, n2] =>
    if sep = 'T' ∨ sep = ' ' then
      match parse4 y1 y2 y3 y4, parse2 m1 m2, parse2 d1 d2, parse2 h1 h2, parse2 n1 n2 with
      | some y, some mo, some d, some hh, some mi => buildDateTime y mo d hh mi
      | _, _, _, _, _ => none
    else none
  | _ => none

/-- `datetime.fromisoformat(s)` (restricted to the modelled grammar):
returns the parsed instant, or raises `ValueError` with Python's message
`Invalid isoformat string: '<s>'`. -/
def fromisoformatE (s : String) : Except PyError Int :=
  match parseIsoCore s.data with
  | some t => Except.ok t
  | none => Except.error (PyError.valueError ("Invalid isoformat string: \x27" ++ s ++ "\x27"))

theorem fromisoformatE_error_is_valueError (s : String) (e : PyError)
    (h : fromisoformatE s = Except.error e) :
    e = PyError.valueError ("Invalid isoformat string: \x27" ++ s ++ "\x27") := by
  unfold fromisoformatE at h
  cases hp : parseIsoCore s.data <;> simp [hp] at h
  exact h.symm

/-- Modelled from the spec: the Site Descriptor
(`quartz_solar_forecast.pydantic_models.PVSite` is not under `src/`):
latitude, longitude, capacity, orientation (default 180°), tilt (default
35°).  The coordinate fields are integers here since no claim depends on
their numeric type — the embedded orchestrator only passes the site
through to collaborator oracles. -/
structure PVSite where
  latitude : Int
  longitude : Int
  capacity_kwp : Int
  orientation : Int := 180
  tilt : Int := 35
deriving DecidableEq

/-- One row of the raw geometry-driven provider output: a `date` column
(epoch seconds) and a `power_wh` value column. -/
structure Row where
  date : Int
  power_wh : Int
deriving DecidableEq

/-- The pandas mask filter of `predict_tryolabs` (forecast.py lines 76-78):
`predictions[(predictions["date"] >= start_time) & (predictions["date"] < end_time)]`.
Row selection keeps the original positional labels. -/
def filterWindow (start_time end_time : Int) (df : List (Nat × Row)) : List (Nat × Row) :=
  df.filter (fun p => decide (start_time ≤ p.2.date) && decide (p.2.date < end_time))

/-- `predictions.reset_index(drop=True)` (forecast.py line 79): discard the
positional labels and rebuild them contiguously `0..n-1`. -/
def reset_index (df : List (Nat × Row)) : List (Nat × Row) :=
  (df.map Prod.snd).enum

/-- `predictions.set_index("date", inplace=True)` (forecast.py line 80):
drop the positional labels and re-key each row by its `date` column. -/
def set_index_date (df : List (Nat × Row)) : List (Int × Int) :=
  df.map (fun p => (p.2.date, p.2.power_wh))

/-- Timestamp resolution of `predict_ocf` (forecast.py lines 22-26):
`if ts is None: ts = pd.Timestamp.now().round("15min")` then
`if isinstance(ts, str): ts = datetime.fromisoformat(ts)`.
`now` is the current instant `pd.Timestamp.now()` passed explicitly. -/
def resolve_ts_ocf (ts : Option TsArg) (now : Int) : Except PyError Int :=
  match ts with
  | none => Except.ok (roundNearest15 now)
  | some (TsArg.dt t) => Except.ok t
  | some (TsArg.str s) => fromisoformatE s

/-- Start resolution of `predict_tryolabs` (forecast.py lines 55-60):
`start_date = pd.Timestamp(ts).strftime("%Y-%m-%d")` modelled as the civil
day number of `ts`, and `start_time = pd.Timestamp(ts).floor("15min")`;
with `ts` absent both are taken from `pd.Timestamp.now()` (passed as
`now`).  `pd.Timestamp` string parsing is modelled by the same ISO parser
as `datetime.fromisoformat` (pandas accepts a superset of it; both raise
`ValueError` on unparseable text). -/
def resolve_start_tryolabs (ts : Option TsArg) (now : Int) : Except PyError (Int × Int) :=
  match ts with
  | none => Except.ok (Int.fdiv now 86400, floorTo15 now)
  | some (TsArg.dt t) => Except.ok (Int.fdiv t 86400, floorTo15 t)
  | some (TsArg.str s) => (fromisoformatE s).map (fun t => (Int.fdiv t 86400, floorTo15 t))

/-- `predict_ocf` (forecast.py lines 10-35): resolve the timestamp, fetch
NWP and PV data from the collaborators, and return `forecast_v1`'s series
unchanged.  The collaborators are function parameters. -/
def predict_ocfE {Nwp Pv : Type}
    (get_nwp : PVSite → Int → String → Nwp)
    (make_pv_data : PVSite → Int → Pv)
    (forecast_v1 : String → Nwp → Pv → Int → List (Int × Int))
    (site : PVSite) (ts : Option TsArg) (now : Int) (nwp_source : String) :
    Except PyError (List (Int × Int)) :=
  match resolve_ts_ocf ts now with
  | Except.error e => Except.error e
  | Except.ok t =>
    Except.ok (forecast_v1 nwp_source (get_nwp site t nwp_source) (make_pv_data site t) t)

/-- `predict_tryolabs` (forecast.py lines 38-82): resolve the start, call
the provider oracle; when it returns a series, filter it to
`[start_time, start_time + 48h)`, `reset_index(drop=True)`, and
`set_index("date")`; when it returns `None` the function falls through and
returns `None`. -/
def predict_tryolabsE
    (predict_power_output : PVSite → Int → Option (List (Nat × Row)))
    (site : PVSite) (ts : Option TsArg) (now : Int) :
    Except PyError (Option (List (Int × Int))) :=
  match resolve_start_tryolabs ts now with
  | Except.error e => Except.error e
  | Except.ok (start_date, start_time) =>
    let end_time := start_time + 172800
    match predict_power_output site start_date with
    | none => Except.ok none
    | some predictions =>
      Except.ok (some (set_index_date (reset_index (filterWindow start_time end_time predictions))))

/-- The two possible shapes of `run_forecast`'s return value: the
weather-driven path returns a DataFrame, the geometry-driven path returns
a DataFrame or Python `None`. -/
inductive RunResult where
  | ocfDf (df : List (Int × Int))
  | tryoDf (df : Option (List (Int × Int)))
deriving DecidableEq

/-- Message of the `ValueError` raised by `run_forecast` on an unknown
model name (forecast.py line 109). -/
def unsupportedMsg (model : String) : String :=
  "Unsupported model: " ++ model ++ ". Choose between \x27tryolabs\x27 and \x27ocf\x27"

/-- `run_forecast` (forecast.py lines 85-109): dispatch on the `model`
string — `"ocf"` to `predict_ocf`, `"tryolabs"` to `predict_tryolabs`,
anything else raises `ValueError` with `unsupportedMsg`. -/
def run_forecastE {Nwp Pv : Type}
    (get_nwp : PVSite → Int → String → Nwp)
    (make_pv_data : PVSite → Int → Pv)
    (forecast_v1 : String → Nwp → Pv → Int → List (Int × Int))
    (predict_power_output : PVSite → Int → Option (List (Nat × Row)))
    (site : PVSite) (model : String) (ts : Option TsArg) (now : Int) (nwp_source : String) :
    Except PyError RunResult :=
  if model = "ocf" then
    (predict_ocfE get_nwp make_pv_data forecast_v1 site ts now nwp_source).map RunResult.ocfDf
  else if model = "tryolabs" then
    (predict_tryolabsE predict_power_output site ts now).map RunResult.tryoDf
  else
    Except.error (PyError.valueError (unsupportedMsg model))

/-- The spec's words for the geometry-driven windowing: the raw series
filtered to the half-open interval `[start_time, start_time + 48h)`, with
positional order discarded and the output re-keyed by the instant
(`date`) as the lookup key. -/
def specWindowed (start_time : Int) (raw : List (Nat × Row)) : List (Int × Int) :=
  ((raw.map Prod.snd).filter
      (fun r => decide (start_time ≤ r.date) && decide (r.date < start_time + 172800))).map
    (fun r => (r.date, r.power_wh))

/-- The spec's output contract for the weather-driven path: the series
covers exactly the 48-hour window from `start` at 15-minute resolution —
its instants are precisely `start, start + 900, …, start + 191 * 900`
in order, hence no gaps and no duplicates. -/
def specSpans48 (start : Int) (df : List (Int × Int)) : Bool :=
  decide (df.map Prod.fst = (List.range 192).map (fun i => start + 900 * (i : Int)))

/-- Uppercase hexadecimal digit for a value below 16. -/
def hexDigitChar (n : Nat) : Char :=
  if n < 10 then Char.ofNat (48 + n) else Char.ofNat (55 + n)

/-- Characters `urllib.parse.quote_plus` leaves unescaped: ASCII letters,
digits, and `_ . - ~`. -/
def isSafeChar (c : Char) : Bool :=
  c.isAlphanum || c = '_' || c = '.' || c = '-' || c = '~'

/-- `urllib.parse.quote_plus` restricted to ASCII input (the only input the
client produces): space becomes `+`, safe characters pass through, every
other character becomes `%XX` with uppercase hex of its code point. -/
def quotePlus (s : String) : String :=
  ⟨s.data.foldr
    (fun c acc =>
      if c = ' ' then '+' :: acc
      else if isSafeChar c then c :: acc
      else '%' :: hexDigitChar (c.toNat / 16) :: hexDigitChar (c.toNat % 16) :: acc)
    []⟩

/-- `urlencode` of the parameter dict of `get_enphase_auth_url`
(enphase.py lines 24-28), in insertion order:
`response_type=code`, `client_id=<id>`, `redirect_uri=<fixed uri>`. -/
def urlencodeAuthParams (client_id : String) : String :=
  quotePlus "response_type" ++ "=" ++ quotePlus "code" ++ "&" ++
    quotePlus "client_id" ++ "=" ++ quotePlus client_id ++ "&" ++
    quotePlus "redirect_uri" ++ "=" ++
    quotePlus "https://api.enphaseenergy.com/oauth/redirect_uri"

/-- `get_enphase_auth_url` (enphase.py lines 12-30): the authorization URL,
with `ENPHASE_CLIENT_ID` passed as the `client_id` parameter. -/
def get_enphase_auth_urlE (client_id : String) : String :=
  "https://api.enphaseenergy.com/oauth/authorize?" ++ urlencodeAuthParams client_id

/-- The characters of the URL strictly before the first occurrence of
`sep`; the whole URL when `sep` does not occur. -/
def beforeFirstL (sep : List Char) : List Char → List Char
  | [] => []
  | c :: cs => if sep.isPrefixOf (c :: cs) then [] else c :: beforeFirstL sep cs

/-- The characters of the URL strictly after the first occurrence of
`sep`; `none` when `sep` does not occur.  This is the formalisation of
"the entire remainder of the URL after the first occurrence of `sep`". -/
def afterFirstL (sep : List Char) : List Char → Option (List Char)
  | [] => none
  | c :: cs =>
    if sep.isPrefixOf (c :: cs) then some ((c :: cs).drop sep.length)
    else afterFirstL sep cs

/-- Fuelled worker for `pySplit`: repeatedly cut at the first occurrence of
`sep`.  Each cut strictly shortens the text (for nonempty `sep`), so fuel
`length + 1` always suffices and the fuel-exhausted branch is dead. -/
def pySplitGo (sep : List Char) : Nat → List Char → List (List Char)
  | 0, s => [s]
  | fuel + 1, s =>
    match afterFirstL sep s with
    | none => [s]
    | some t => beforeFirstL sep s :: pySplitGo sep fuel t

/-- Python `str.split(sep)` for nonempty `sep`: the segments of `s` between
consecutive non-overlapping occurrences of `sep`, scanned left to right. -/
def pySplit (sep s : List Char) : List (List Char) :=
  pySplitGo sep (s.length + 1) s

/-- Fuelled worker for `countOccL`, mirroring `pySplitGo`. -/
def countOccGo (sep : List Char) : Nat → List Char → Nat
  | 0, _ => 0
  | fuel + 1, s =>
    match afterFirstL sep s with
    | none => 0
    | some t => countOccGo sep fuel t + 1

/-- Number of non-overlapping occurrences of `sep` in `s`, scanned left to
right — the notion of occurrence that Python's `str.split` cuts at. -/
def countOccL (sep s : List Char) : Nat :=
  countOccGo sep (s.length + 1) s

/-- The separator `"?code="` used by `get_enphase_authorization_code`. -/
def codeSep : List Char := "?code=".data

/-- `get_enphase_authorization_code` (enphase.py lines 33-49) with the
human interaction made explicit: `auth_url` is printed and otherwise
unused, `redirect_url` is the pasted text read from `input()`, and the
code is `redirect_url.split("?code=")[1]` — the indexing raises
`IndexError` when the split yields fewer than two parts. -/
def get_enphase_authorization_codeE (auth_url redirect_url : String) : Except PyError String :=
  let parts := pySplit codeSep redirect_url.data
  if h : 1 < parts.length then Except.ok ⟨parts.get ⟨1, h⟩⟩
  else Except.error PyError.indexError

/-- The token-endpoint HTTP response seen by `get_enphase_access_token`:
its status line and its JSON body, the latter modelled as the parsed
string-to-string object. -/
structure HttpResponse where
  status : Nat
  body : List (String × String)

/-- The response handling of `get_enphase_access_token` (enphase.py lines
89-102): the body is JSON-decoded and `data_json["access_token"]` is read —
a `KeyError` when the field is absent.  The HTTP status of the response is
never inspected by the code, which the embedding reflects by ignoring
`res.status`. -/
def get_enphase_access_tokenE (res : HttpResponse) : Except PyError String :=
  match res.body.lookup "access_token" with
  | some tok => Except.ok tok
  | none => Except.error (PyError.keyError "access_token")

theorem enumFrom_map_snd {α β : Type} (g : α → β) :
    ∀ (n : Nat) (l : List α), (List.enumFrom n l).map (fun p => g p.2) = l.map g := by
  intro n l
  induction l generalizing n with
  | nil => rfl
  | cons hd tl ih => simp [List.enumFrom, ih]

theorem map_snd_filter_snd (p : Row → Bool) :
    ∀ df : List (Nat × Row),
      (df.filter (fun q => p q.2)).map Prod.snd = (df.map Prod.snd).filter p := by
  intro df
  induction df with
  | nil => rfl
  | cons hd tl ih =>
    by_cases hp : p hd.2 <;> simp [List.filter_cons, hp, ih]

theorem window_pipeline (a b : Int) (df : List (Nat × Row)) :
    set_index_date (reset_index (filterWindow a b df)) =
      ((df.map Prod.snd).filter
          (fun r => decide (a ≤ r.date) && decide (r.date < b))).map
        (fun r => (r.date, r.power_wh)) := by
  unfold set_index_date reset_index filterWindow List.enum
  rw [enumFrom_map_snd (fun r : Row => (r.date, r.power_wh)) 0,
    map_snd_filter_snd (fun r : Row => decide (a ≤ r.date) && decide (r.date < b))]

theorem pySplitGo_ne_nil (sep : List Char) (fuel : Nat) (s : List Char) :
    pySplitGo sep fuel s ≠ [] := by
  cases fuel with
  | zero => simp [pySplitGo]
  | succ f =>
    cases hx : afterFirstL sep s <;> simp [pySplitGo, hx]

theorem pySplitGo_length (sep : List Char) (fuel : Nat) (s : List Char) :
    (pySplitGo sep fuel s).length = countOccGo sep fuel s + 1 := by
  induction fuel generalizing s with
  | zero => simp [pySplitGo, countOccGo]
  | succ f ih =>
    cases hx : afterFirstL sep s <;> simp [pySplitGo, countOccGo, hx, ih]

theorem pySplitGo_singleton (sep : List Char) (fuel : Nat) (s : List Char)
    (h : countOccGo sep fuel s = 0) : pySplitGo sep fuel s = [s] := by
  cases fuel with
  | zero => rfl
  | succ f =>
    cases hx : afterFirstL sep s with
    | none => simp [pySplitGo, hx]
    | some t => simp [countOccGo, hx] at h

theorem pySplit_pair (sep s t : List Char)
    (h1 : countOccL sep s = 1) (h2 : afterFirstL sep s = some t) :
    pySplit sep s = [beforeFirstL sep s, t] := by
  unfold countOccL countOccGo at h1
  rw [h2] at h1
  simp at h1
  unfold pySplit
  simp only [pySplitGo, h2]
  rw [pySplitGo_singleton sep s.length t h1]

/-- C1: for every non-absent raw series returned by the geometry-driven
provider, `run_forecast` with model `"tryolabs"` returns exactly that raw
series filtered to `[start_time, start_time + 48h)` — `start_time` being
the resolved timestamp floored to the 15-minute boundary — with positional
indices rebuilt `0..n-1` and the series re-keyed by the `date` column, as
captured by the spec-side definition `specWindowed`. -/
theorem c1_tryolabs_windowed {Nwp Pv : Type}
    (get_nwp : PVSite → Int → String → Nwp)
    (make_pv_data : PVSite → Int → Pv)
    (forecast_v1 : String → Nwp → Pv → Int → List (Int × Int))
    (predict_power_output : PVSite → Int → Option (List (Nat × Row)))
    (site : PVSite) (t now : Int) (nwp_source : String) (raw : List (Nat × Row))
    (h : predict_power_output site (Int.fdiv t 86400) = some raw) :
    run_forecastE get_nwp make_pv_data forecast_v1 predict_power_output
        site "tryolabs" (some (TsArg.dt t)) now nwp_source =
      Except.ok (RunResult.tryoDf (some (specWindowed (floorTo15 t) raw))) := by
  unfold run_forecastE
  rw [if_neg (by decide), if_pos rfl]
  unfold predict_tryolabsE resolve_start_tryolabs
  simp only [h, Except.map]
  rw [window_pipeline]
  rfl

/-- Witness for C1: a concrete provider output with one row inside the
window (date 0) and one outside (date 200000 ≥ 48h); the orchestrator
keeps exactly the in-window row, keyed by its date. -/
theorem c1_tryolabs_windowed_witness :
    run_forecastE (fun _ _ _ => ()) (fun _ _ => ())
        (fun _ _ _ _ => ([] : List (Int × Int)))
        (fun _ _ => some [(0, Row.mk 0 5), (3, Row.mk 200000 7)])
        ⟨51, -1, 1, 180, 35⟩ "tryolabs" (some (TsArg.dt 17)) 0 "icon" =
      Except.ok (RunResult.tryoDf (some [(0, 5)])) :=
  c1_tryolabs_windowed (fun _ _ _ => ()) (fun _ _ => ())
    (fun _ _ _ _ => ([] : List (Int × Int)))
    (fun _ _ => some [(0, Row.mk 0 5), (3, Row.mk 200000 7)])
    ⟨51, -1, 1, 180, 35⟩ 17 0 "icon" [(0, Row.mk 0 5), (3, Row.mk 200000 7)] rfl

/-- C2 (code bug): with the timestamp absent, the weather-driven path
resolves the start to `pd.Timestamp.now().round("15min")` — rounding to
the NEAREST 15-minute boundary — so at `now` = 600 s (00:10:00) it
resolves to 900 s (00:15:00), which is later than `now` and differs from
the rounded-down value 0 that the claim (and `predict_ocf`'s own
docstring) prescribe; the geometry-driven path does floor as claimed. -/
theorem c2_ocf_rounds_to_nearest :
    resolve_ts_ocf none 600 = Except.ok 900 ∧
      (600 : Int) < 900 ∧
      floorTo15 600 = 0 ∧
      resolve_start_tryolabs none 600 = Except.ok (0, 0) :=
  ⟨rfl, by decide, rfl, rfl⟩

/-- C3 (code bug): pasting a redirect URL with no `code=` parameter makes
`get_enphase_authorization_code` fail with `IndexError` — Python's
`redirect_url.split("?code=")[1]` on a one-element list — not with the
`MissingAuthorizationCodeError` the specification requires (no such error
class exists in the code). -/
theorem c3_missing_code_raises_index_error :
    get_enphase_authorization_codeE (get_enphase_auth_urlE "client-123")
        "https://api.enphaseenergy.com/oauth/redirect_uri" =
      Except.error PyError.indexError := rfl

/-- C5 (code bug): a token-endpoint body without `access_token` (here
`{"error": "invalid_grant"}`) makes `get_enphase_access_token` fail with
`KeyError(\x27access_token\x27)` — not a `TokenExchangeError` carrying the
raw body — and an HTTP error status is ignored entirely: a 502 response
whose body does contain `access_token` succeeds. -/
theorem c5_token_exchange_keyerror :
    get_enphase_access_tokenE ⟨400, [("error", "invalid_grant")]⟩ =
        Except.error (PyError.keyError "access_token") ∧
      get_enphase_access_tokenE ⟨502, [("access_token", "tok-1")]⟩ =
        Except.ok "tok-1" :=
  ⟨rfl, rfl⟩

/-- C9: the geometry-driven windowing filter is idempotent — on a series
whose rows all lie in `[a, a + 48h)`, filtering to that same interval
returns the series unchanged. -/
theorem c9_window_idempotent (a : Int) (df : List (Nat × Row))
    (h : ∀ p ∈ df, a ≤ (Prod.snd p).date ∧ (Prod.snd p).date < a + 172800) :
    filterWindow a (a + 172800) df = df := by
  unfold filterWindow
  refine List.filter_eq_self.mpr ?_
  intro p hp
  have hw := h p hp
  simp [hw.1, hw.2]

/-- Witness for C9: a two-row series with dates 0 and 172799 (both inside
the 48-hour window from 0) is returned unchanged by the filter. -/
theorem c9_window_idempotent_witness :
    (∀ p ∈ ([(0, Row.mk 0 5), (1, Row.mk 172799 7)] : List (Nat × Row)),
        (0 : Int) ≤ (Prod.snd p).date ∧ (Prod.snd p).date < 0 + 172800) ∧
      filterWindow 0 (0 + 172800) [(0, Row.mk 0 5), (1, Row.mk 172799 7)] =
        [(0, Row.mk 0 5), (1, Row.mk 172799 7)] :=
  ⟨by decide, c9_window_idempotent 0 [(0, Row.mk 0 5), (1, Row.mk 172799 7)] (by decide)⟩

/-- C4: `run_forecast` on any model name other than `"ocf"` and
`"tryolabs"` fails — independently of the collaborators, so no provider is
invoked — with a `ValueError` whose message contains the offending value
and both allowed names; each of the two known names dispatches to the
corresponding provider path. -/
theorem c4_dispatch {Nwp Pv : Type}
    (get_nwp : PVSite → Int → String → Nwp)
    (make_pv_data : PVSite → Int → Pv)
    (forecast_v1 : String → Nwp → Pv → Int → List (Int × Int))
    (predict_power_output : PVSite → Int → Option (List (Nat × Row)))
    (site : PVSite) (ts : Option TsArg) (now : Int) (nwp_source : String)
    (m : String) (h1 : m ≠ "ocf") (h2 : m ≠ "tryolabs") :
    run_forecastE get_nwp make_pv_data forecast_v1 predict_power_output
        site m ts now nwp_source =
      Except.error (PyError.valueError (unsupportedMsg m)) ∧
    m.data <:+: (unsupportedMsg m).data ∧
    "ocf".data <:+: (unsupportedMsg m).data ∧
    "tryolabs".data <:+: (unsupportedMsg m).data ∧
    run_forecastE get_nwp make_pv_data forecast_v1 predict_power_output
        site "ocf" ts now nwp_source =
      (predict_ocfE get_nwp make_pv_data forecast_v1 site ts now nwp_source).map
        RunResult.ocfDf ∧
    run_forecastE get_nwp make_pv_data forecast_v1 predict_power_output
        site "tryolabs" ts now nwp_source =
      (predict_tryolabsE predict_power_output site ts now).map RunResult.tryoDf := by
  obtain ⟨l⟩ := m
  have hsuf : ". Choose between \x27tryolabs\x27 and \x27ocf\x27".data <:+:
      (unsupportedMsg ⟨l⟩).data := by
    refine ⟨"Unsupported model: ".data ++ l, [], ?_⟩
    simp [unsupportedMsg]
  refine ⟨?_, ?_, ?_, ?_, ?_, ?_⟩
  · unfold run_forecastE
    rw [if_neg h1, if_neg h2]
  · exact ⟨"Unsupported model: ".data,
      ". Choose between \x27tryolabs\x27 and \x27ocf\x27".data, by simp [unsupportedMsg]⟩
  · exact List.IsInfix.trans (by decide) hsuf
  · exact List.IsInfix.trans (by decide) hsuf
  · rfl
  · rfl

/-- Witness for C4: model name `"bogus"` triggers the error, and its
message is the literal naming `bogus` and listing `tryolabs` and `ocf`. -/
theorem c4_dispatch_witness :
    ("bogus" : String) ≠ "ocf" ∧ ("bogus" : String) ≠ "tryolabs" ∧
      run_forecastE (fun _ _ _ => ()) (fun _ _ => ())
          (fun _ _ _ _ => ([] : List (Int × Int))) (fun _ _ => none)
          ⟨51, -1, 1, 180, 35⟩ "bogus" (some (TsArg.dt 0)) 0 "icon" =
        Except.error (PyError.valueError
          "Unsupported model: bogus. Choose between \x27tryolabs\x27 and \x27ocf\x27") :=
  ⟨by decide, by decide,
    (c4_dispatch (fun _ _ _ => ()) (fun _ _ => ())
      (fun _ _ _ _ => ([] : List (Int × Int))) (fun _ _ => none)
      ⟨51, -1, 1, 180, 35⟩ (some (TsArg.dt 0)) 0 "icon" "bogus"
      (by decide) (by decide)).1⟩

/-- C6 counterexample: the unparseable timestamp text `"not-a-date"` makes
the resolution step fail with Python's `ValueError` (the error
`datetime.fromisoformat` raises), not with the `MalformedTimestampError`
the claim names — that constructor is never produced. -/
theorem c6_counterexample :
    resolve_ts_ocf (some (TsArg.str "not-a-date")) 0 =
      Except.error (PyError.valueError "Invalid isoformat string: \x27not-a-date\x27") := rfl

/-- C6 (amended): for every timestamp text the ISO parser accepts, both
provider paths resolve to the parsed instant (the geometry-driven path
additionally derives its start date and 15-minute-floored start time from
it); and whenever the parser rejects the text, the failure is a
`ValueError`, propagated unchanged. -/
theorem c6_iso_resolution (s : String) (now : Int) :
    (∀ t : Int, fromisoformatE s = Except.ok t →
      resolve_ts_ocf (some (TsArg.str s)) now = Except.ok t ∧
        resolve_start_tryolabs (some (TsArg.str s)) now =
          Except.ok (Int.fdiv t 86400, floorTo15 t)) ∧
    (∀ e : PyError, fromisoformatE s = Except.error e →
      resolve_ts_ocf (some (TsArg.str s)) now = Except.error e ∧
        resolve_start_tryolabs (some (TsArg.str s)) now = Except.error e ∧
        ∃ msg, e = PyError.valueError msg) := by
  constructor
  · intro t ht
    refine ⟨ht, ?_⟩
    simp only [resolve_start_tryolabs, ht, Except.map]
  · intro e he
    refine ⟨he, ?_, ?_⟩
    · simp only [resolve_start_tryolabs, he, Except.map]
    · exact ⟨_, fromisoformatE_error_is_valueError s e he⟩

/-- Witness for C6: the ISO text `2024-01-02T03:15` parses to epoch second
1704165300 (already 15-minute aligned, civil day 19724), and both paths
resolve accordingly. -/
theorem c6_iso_resolution_witness :
    resolve_ts_ocf (some (TsArg.str "2024-01-02T03:15")) 0 = Except.ok 1704165300 ∧
      resolve_start_tryolabs (some (TsArg.str "2024-01-02T03:15")) 0 =
        Except.ok (19724, 1704165300) :=
  (c6_iso_resolution "2024-01-02T03:15" 0).1 1704165300 rfl

/-- C7 counterexample: with a prediction model returning the empty series,
the weather-driven path of `run_forecast` returns that series as-is even
though it does not span the 48-hour window — the orchestration layer
neither rejects nor trims. -/
theorem c7_counterexample :
    run_forecastE (fun _ _ _ => ()) (fun _ _ => ())
        (fun _ _ _ _ => ([] : List (Int × Int))) (fun _ _ => none)
        ⟨51, -1, 1, 180, 35⟩ "ocf" (some (TsArg.dt 0)) 0 "icon" =
      Except.ok (RunResult.ocfDf []) ∧
    specSpans48 0 [] = false :=
  ⟨rfl, by decide⟩

/-- C7 (amended): the weather-driven path returns the prediction model's
series unchanged — `run_forecast` with model `"ocf"` yields exactly
`forecast_v1`'s output for the resolved timestamp, so the returned series
spans the 48-hour window at 15-minute resolution precisely when the
model's output already does. -/
theorem c7_ocf_passthrough {Nwp Pv : Type}
    (get_nwp : PVSite → Int → String → Nwp)
    (make_pv_data : PVSite → Int → Pv)
    (forecast_v1 : String → Nwp → Pv → Int → List (Int × Int))
    (predict_power_output : PVSite → Int → Option (List (Nat × Row)))
    (site : PVSite) (t now : Int) (nwp_source : String) :
    run_forecastE get_nwp make_pv_data forecast_v1 predict_power_output
        site "ocf" (some (TsArg.dt t)) now nwp_source =
      Except.ok (RunResult.ocfDf
        (forecast_v1 nwp_source (get_nwp site t nwp_source) (make_pv_data site t) t)) := rfl

/-- C8: round-trip — for the authorization URL built by the client (any
`client_id`) and a pasted redirect URL that is the fixed redirect URI
followed by exactly the query `?code=ABC123`, the extraction step returns
exactly `"ABC123"`. -/
theorem c8_roundtrip (client_id : String) :
    get_enphase_authorization_codeE (get_enphase_auth_urlE client_id)
        "https://api.enphaseenergy.com/oauth/redirect_uri?code=ABC123" =
      Except.ok "ABC123" := rfl

/-- C10 counterexample: on a redirect URL in which `?code=` occurs twice,
the extraction returns only the segment between the first and second
occurrence (`"ABC&state=y"`), not the entire remainder after the first
occurrence (`"ABC&state=y?code=Z"`) as the claim states. -/
theorem c10_counterexample :
    get_enphase_authorization_codeE "" "https://x?code=ABC&state=y?code=Z" =
        Except.ok "ABC&state=y" ∧
      afterFirstL codeSep "https://x?code=ABC&state=y?code=Z".data =
        some "ABC&state=y?code=Z".data ∧
      ("ABC&state=y" : String) ≠ "ABC&state=y?code=Z" :=
  ⟨rfl, rfl, by decide⟩

/-- C10 (amended): for every pasted redirect URL in which `?code=`
effectively occurs exactly once, the extraction returns the entire
remainder of the URL after that occurrence — including any further query
parameters, as in `...?code=ABC&state=x` yielding `ABC&state=x`; with more
than one occurrence only the segment before the second occurrence is
returned. -/
theorem c10_after_first_occurrence (auth_url url : String) (t : List Char)
    (h1 : countOccL codeSep url.data = 1)
    (h2 : afterFirstL codeSep url.data = some t) :
    get_enphase_authorization_codeE auth_url url = Except.ok ⟨t⟩ := by
  unfold get_enphase_authorization_codeE
  rw [pySplit_pair codeSep url.data t h1 h2]
  rfl

/-- Witness for C10: `https://x?code=ABC&state=y` has one occurrence of
`?code=`, and extraction returns the full remainder `ABC&state=y`. -/
theorem c10_after_first_occurrence_witness :
    get_enphase_authorization_codeE "" "https://x?code=ABC&state=y" =
      Except.ok "ABC&state=y" :=
  c10_after_first_occurrence "" "https://x?code=ABC&state=y"
    "ABC&state=y".data (by decide) rfl
